import Mathlib

/-!
Verification of the wide-to-long stock-data conversion pipeline.

The repository has three scripts:
* `multi_file_converter.py` — the general pipeline `convert_stock_file_to_long`
  (melt, sentinel filter, threshold-gated numeric coercion) and the batch
  driver `convert_all_stock_files`;
* `quarterly_files.py` — `fix_quarterly_data_files`, the header-offset
  corrected variants for announcement dates (no coercion) and book values
  (unconditional coercion);
* `wide_to_long.py` — `convert_wide_to_long_csv`, melt and sentinel filter
  only.

This file shallowly embeds those pipelines.  A spreadsheet cell is a
`CellValue` (null / rational number / text); a loaded wide table keeps its
identifier column and value columns positionally, exactly as the scripts use
them (`df.columns[0]` / `df.columns[1:]`).  pandas `melt` is embedded as a
column-major traversal, `dropna` and the `!= '-'` / `!= ''` comparisons as
three successive list filters, and `pd.to_numeric(errors='coerce')` as an
executable decimal parser returning `Option ℚ`.  File I/O, printing and CSV
writing are outside the embedded core, as the spec scopes them out.
-/

/-- A spreadsheet cell as it arrives from the external reader: absent (NaN),
a number, or text.  Numbers are modelled as exact rationals. -/
inductive CellValue where
  | null : CellValue
  | num : ℚ → CellValue
  | text : String → CellValue
deriving DecidableEq, Repr

/-- One row of a loaded wide table, already split positionally: the cell of
the first (identifier) column and the cells of the remaining value columns,
matching `date_col = df.columns[0]`, `stock_cols = df.columns[1:]`. -/
structure WideRow where
  period : CellValue
  vals : List CellValue
deriving DecidableEq, Repr

/-- A loaded wide table: the identifier column's header, the value columns'
headers (one per stock), and the data rows. -/
structure WideTable where
  idLabel : CellValue
  colLabels : List CellValue
  rows : List WideRow
deriving DecidableEq, Repr

/-- One row of the long format: `(Date, Stock, Value)`.  The identifier
column is renamed to `Date` by `long_df.rename(columns={date_col: 'Date'})`;
here the field is named `date` from the start. -/
structure LongRecord where
  date : CellValue
  stock : CellValue
  value : CellValue
deriving DecidableEq, Repr

/-- Column-major melt starting at value-column index `j`: all rows for the
first remaining value column, then the next, as pandas `melt` orders its
output.  A missing cell (ragged row) reads as null, matching a rectangular
DataFrame padded with NaN. -/
def meltFrom (rows : List WideRow) (j : ℕ) : List CellValue → List LongRecord
  | [] => []
  | lbl :: rest =>
      rows.map (fun r => ⟨r.period, lbl, r.vals.getD j CellValue.null⟩) ++
        meltFrom rows (j + 1) rest

/-- `df.melt(id_vars=[date_col], value_vars=stock_cols, var_name='Stock',
value_name=...)` followed by the rename of the identifier column to `Date`. -/
def melt (df : WideTable) : List LongRecord :=
  meltFrom df.rows 0 df.colLabels

/-- `long_df.dropna(subset=[value_column_name])`: drop rows whose value cell
is absent. -/
def dropnaValue (recs : List LongRecord) : List LongRecord :=
  recs.filter fun r => r.value ≠ CellValue.null

/-- `long_df[long_df[value] != '-']`: keep rows whose value cell is not the
text `-` (a null or numeric cell compares unequal, hence is kept). -/
def dropDash (recs : List LongRecord) : List LongRecord :=
  recs.filter fun r => r.value ≠ CellValue.text "-"

/-- `long_df[long_df[value] != '']`: keep rows whose value cell is not the
empty text. -/
def dropEmptyText (recs : List LongRecord) : List LongRecord :=
  recs.filter fun r => r.value ≠ CellValue.text ""

/-- The three cleaning statements of the scripts in source order: `dropna`,
then `!= '-'`, then `!= ''`. -/
def sentinelFilter (recs : List LongRecord) : List LongRecord :=
  dropEmptyText (dropDash (dropnaValue recs))

/-- A value the sentinel filter removes: absent, the literal `-`, or the
empty string. -/
def isSentinel : CellValue → Bool
  | CellValue.null => true
  | CellValue.num _ => false
  | CellValue.text s => s = "-" || s = ""

/-- `.str.replace(',', '')`: delete every comma character. -/
def stripCommas (s : String) : String :=
  String.mk (s.data.filter fun c => c ≠ ',')

/-- Value of a nonempty digit string. -/
def natOfDigits (cs : List Char) : ℕ :=
  cs.foldl (fun a c => 10 * a + (c.toNat - ('0').toNat)) 0

/-- Unsigned decimal literal: digits, optionally a point and more digits,
with at least one digit present overall (`"7"`, `"7."`, `".5"`, `"7.25"`). -/
def parseUnsigned (cs : List Char) : Option ℚ :=
  let ip := cs.takeWhile fun c => c ≠ '.'
  match cs.dropWhile fun c => c ≠ '.' with
  | [] =>
      if ip ≠ [] ∧ ip.all Char.isDigit then some (natOfDigits ip) else none
  | _ :: fp =>
      if (ip ≠ [] ∨ fp ≠ []) ∧ ip.all Char.isDigit ∧ fp.all Char.isDigit then
        some ((natOfDigits ip : ℚ) + (natOfDigits fp : ℚ) / (10 : ℚ) ^ fp.length)
      else none

/-- Model of `pd.to_numeric(s, errors='coerce')` on a single string: an
optionally signed decimal literal parses to its exact rational value, and
anything else coerces to NaN, returned here as `none`.  Exponent forms,
which none of the modelled inputs use, are not parsed. -/
def parseNumeric (s : String) : Option ℚ :=
  match s.data with
  | '-' :: rest => (parseUnsigned rest).map Neg.neg
  | '+' :: rest => parseUnsigned rest
  | cs => parseUnsigned cs

/-- `.astype(str)` on one cell: text stays itself, a number prints (exact for
the integral cells these files hold), NaN prints as `nan` (which
`pd.to_numeric` then coerces back to NaN, i.e. `parseNumeric "nan" = none`
matches the row being dropped by the subsequent `dropna`). -/
def cellStr : CellValue → String
  | CellValue.null => "nan"
  | CellValue.num q => toString q
  | CellValue.text s => s

/-- The cleaned-then-parsed value of a record:
`pd.to_numeric(cell.astype(str).str.replace(',', ''), errors='coerce')`. -/
def parsedValue (r : LongRecord) : Option ℚ :=
  parseNumeric (stripCommas (cellStr r.value))

/-- Number of values of the column that parse as numeric
(`numeric_values.notna().sum()`). -/
def successCount (recs : List LongRecord) : ℕ :=
  (recs.filterMap parsedValue).length

/-- Lines 51–59 of `convert_stock_file_to_long`, given that the column's
dtype is object: replace the column by its comma-stripped string form, parse
every value, and if strictly more than 0.8 of the values parsed
(`numeric_values.notna().sum() > len(numeric_values) * 0.8`, the threshold
taken exactly), commit — keep the parsed numeric values and `dropna` the
rows that did not parse; otherwise leave the comma-stripped strings. -/
def coerceStep (recs : List LongRecord) : List LongRecord :=
  if 5 * successCount recs > 4 * recs.length then
    (recs.zip (recs.map parsedValue)).filterMap fun p =>
      p.2.map fun q => { p.1 with value := CellValue.num q }
  else
    recs.map fun r => { r with value := CellValue.text (stripCommas (cellStr r.value)) }

/-- Whether the melted value column has object (non-numeric) storage dtype:
true exactly when some cell of the column is text.  pandas fixes the dtype
when the file is read; filtering rows afterwards does not change it, so the
test at line 51 sees the dtype of the full melted column. -/
def objectDtype (recs : List LongRecord) : Bool :=
  recs.any fun r =>
    match r.value with
    | CellValue.text _ => true
    | _ => false

/-- Result of one run of the general pipeline: the final records and the
`removed_rows` count the script reports. -/
structure ConvOutput where
  records : List LongRecord
  removedReported : ℕ
deriving DecidableEq, Repr

/-- `convert_stock_file_to_long` of `multi_file_converter.py` after the
external read, without the CSV write and printing: melt, record
`initial_rows`, run the three sentinel filters, run the coercion step when
the column's storage is object dtype, and report
`removed_rows = initial_rows - final_rows` where `final_rows` is counted
after coercion (lines 43–65). -/
def convert_stock_file_to_long (df : WideTable) : ConvOutput :=
  let long := melt df
  let initialRows := long.length
  let filtered := sentinelFilter long
  let final := if objectDtype long then coerceStep filtered else filtered
  { records := final, removedReported := initialRows - final.length }

/-- `convert_wide_to_long_csv` of `wide_to_long.py` after the external read:
melt and sentinel filter only, no coercion step. -/
def convert_wide_to_long_csv (df : WideTable) : List LongRecord :=
  sentinelFilter (melt df)

/-- Header-offset correction of `fix_quarterly_data_files`
(`quarterly_files.py` lines 21–31 and 62–70): the loaded table is a list of
raw rows; row 0 (`df.iloc[0].values`) becomes the authoritative header list,
the remaining rows (`df.iloc[1:].reset_index(drop=True)`) become the data
body under those labels, and the labels split positionally into the
identifier (position 0) and the value columns (positions 1..N-1).  An empty
load makes `iloc[0]` raise, which the scripts' `except` catches; that is
`none` here. -/
def fixHeaderOffset : List (List CellValue) → Option WideTable
  | [] => none
  | hdr :: body =>
      some { idLabel := hdr.headD CellValue.null
             colLabels := hdr.drop 1
             rows := body.map fun r => ⟨r.headD CellValue.null, r.drop 1⟩ }

/-- The announcement-dates branch of `fix_quarterly_data_files` (lines
13–47) after the external read: header-offset correction, melt, sentinel
filter.  No numeric coercion is applied to this column. -/
def fixAnnouncementDates (raw : List (List CellValue)) : Option (List LongRecord) :=
  (fixHeaderOffset raw).map fun wt => sentinelFilter (melt wt)

/-- Unconditional numeric coercion of the book-values branch (lines 85–88):
`astype(str).str.replace(',', '')`, `pd.to_numeric(errors='coerce')`, then
`dropna` — every record keeps only its parsed numeric value, and every
record that fails to parse is dropped; there is no threshold test. -/
def coerceUnconditional (recs : List LongRecord) : List LongRecord :=
  recs.filterMap fun r =>
    (parsedValue r).map fun q => { r with value := CellValue.num q }

/-- The book-values branch of `fix_quarterly_data_files` (lines 57–91) after
the external read: header-offset correction, melt, sentinel filter, then
unconditional numeric coercion. -/
def fixBookValues (raw : List (List CellValue)) : Option (List LongRecord) :=
  (fixHeaderOffset raw).map fun wt =>
    coerceUnconditional (sentinelFilter (melt wt))

/-- One entry of `files_config` in `convert_all_stock_files`. -/
structure FileConfig where
  file : String
  suffix : String
  valueName : String
  description : String
deriving DecidableEq, Repr

/-- What the filesystem and the per-file pipeline do for one configured
file, as seen from the batch driver: the file is absent
(`os.path.exists` false), or present and processing raises an error with a
description, or present and processing succeeds producing `rows` output
records.  This stands in for the external reader plus
`convert_stock_file_to_long`; the driver itself only branches on these three
outcomes. -/
inductive FileState where
  | absent : FileState
  | raises : String → FileState
  | ok : ℕ → FileState
deriving DecidableEq, Repr

/-- One element of the `results` list built by `convert_all_stock_files`:
original file, output file (when produced), description, `rows`, `success`,
and the `error` key which is present only in the `except` branch. -/
structure ConversionResult where
  originalFile : String
  outputFile : Option String
  description : String
  rows : ℕ
  success : Bool
  error : Option String
deriving DecidableEq, Repr

/-- The loop body of `convert_all_stock_files` (lines 152–191) for one
configured file: a missing file records a failure with zero rows and no
error key; a raised error is caught and recorded as a failure with zero rows
carrying the error's description; success records the output filename and
the row count.  In every case the loop continues to the next file. -/
def processConfig (env : String → FileState) (c : FileConfig) : ConversionResult :=
  match env c.file with
  | FileState.absent =>
      { originalFile := c.file, outputFile := none, description := c.description
        rows := 0, success := false, error := none }
  | FileState.raises e =>
      { originalFile := c.file, outputFile := none, description := c.description
        rows := 0, success := false, error := some e }
  | FileState.ok n =>
      { originalFile := c.file
        outputFile := some (c.file ++ c.suffix ++ "_long_format.csv")
        description := c.description, rows := n, success := true, error := none }

/-- `convert_all_stock_files` over an arbitrary configuration list and
filesystem state: one `ConversionResult` per configured file, in configured
order. -/
def convert_all_stock_files (env : String → FileState)
    (configs : List FileConfig) : List ConversionResult :=
  configs.map (processConfig env)

/-- The aggregate figures of the summary report (lines 198–215):
`successful` counts results whose `success` flag is set, the denominator is
the number of configured files, and `total_rows` sums `rows` over the
successful results. -/
def batchSummary (results : List ConversionResult) : ℕ × ℕ × ℕ :=
  ((results.filter (·.success)).length,
    results.length,
    ((results.filter (·.success)).map (·.rows)).sum)

/-- The literal `files_config` list of `convert_all_stock_files`
(`multi_file_converter.py` lines 114–145), original spelling included. -/
def files_config : List FileConfig :=
  [⟨"stock price.xlsx", "_prices", "Price", "Stock Prices"⟩,
   ⟨"tv.xlsx", "_volume", "Volume", "Trading Volume"⟩,
   ⟨"mkt cap.xlsx", "_market_cap", "MarketCap", "Market Capitalization"⟩,
   ⟨"book value.xlsx", "_book_value", "BookValue", "Book Value (Quarterly)"⟩,
   ⟨"announcemnet date.xlsx", "_announcement", "AnnouncementDate", "Announcement Dates"⟩]

/-- Whether a file's state lets the pipeline succeed. -/
def isOkState : FileState → Bool
  | FileState.ok _ => true
  | _ => false

/-- The produced row count of a file that processes successfully. -/
def okRows : FileState → Option ℕ
  | FileState.ok n => some n
  | _ => none

/-! ### Concrete tables used in the spec's scenarios -/

/-- The spec's 2-period × 2-stock scenario with values `[[100, "-"], [200, 300]]`. -/
def exampleTwoByTwo : WideTable :=
  { idLabel := CellValue.text "Period"
    colLabels := [CellValue.text "S1", CellValue.text "S2"]
    rows := [⟨CellValue.text "P1", [CellValue.num 100, CellValue.text "-"]⟩,
             ⟨CellValue.text "P2", [CellValue.num 200, CellValue.num 300]⟩] }

/-- A raw load whose row 0 is the secondary header
`["Period", "1101 X", "1102 Y"]`, followed by two data rows. -/
def exampleHeaderRaw : List (List CellValue) :=
  [[CellValue.text "Period", CellValue.text "1101 X", CellValue.text "1102 Y"],
   [CellValue.text "Q1", CellValue.num 1, CellValue.num 2],
   [CellValue.text "Q2", CellValue.num 3, CellValue.num 4]]

/-- A single text column with exactly 80 parseable and 20 unparseable values
out of 100, as one melted record list. -/
def thresholdColumn80 : List LongRecord :=
  List.replicate 80 ⟨CellValue.text "P", CellValue.text "S", CellValue.text "1"⟩ ++
    List.replicate 20 ⟨CellValue.text "P", CellValue.text "S", CellValue.text "x"⟩

/-- A single text column with 81 parseable and 19 unparseable values out of
100, as one melted record list. -/
def thresholdColumn81 : List LongRecord :=
  List.replicate 81 ⟨CellValue.text "P", CellValue.text "S", CellValue.text "1"⟩ ++
    List.replicate 19 ⟨CellValue.text "P", CellValue.text "S", CellValue.text "x"⟩

/-- A 7-row single-stock table: one sentinel value, five parseable numbers,
one unparseable string. -/
def exampleCoercionDrop : WideTable :=
  { idLabel := CellValue.text "D"
    colLabels := [CellValue.text "S"]
    rows := [⟨CellValue.text "P1", [CellValue.text "-"]⟩,
             ⟨CellValue.text "P2", [CellValue.text "1"]⟩,
             ⟨CellValue.text "P3", [CellValue.text "2"]⟩,
             ⟨CellValue.text "P4", [CellValue.text "3"]⟩,
             ⟨CellValue.text "P5", [CellValue.text "4"]⟩,
             ⟨CellValue.text "P6", [CellValue.text "5"]⟩,
             ⟨CellValue.text "P7", [CellValue.text "x"]⟩] }

/-- A book-value raw load whose single value column parses in only 1 of 3
cases (ratio 1/3, well below 0.8). -/
def exampleBookRaw : List (List CellValue) :=
  [[CellValue.text "P", CellValue.text "A"],
   [CellValue.text "Q1", CellValue.text "x"],
   [CellValue.text "Q2", CellValue.text "y"],
   [CellValue.text "Q3", CellValue.text "7"]]

/-- An announcement-dates raw load with one non-numeric surviving value
(`"3/31"`) and one sentinel (`-`). -/
def exampleAnnounceRaw : List (List CellValue) :=
  [[CellValue.text "P", CellValue.text "A", CellValue.text "B"],
   [CellValue.text "Q1", CellValue.text "3/31", CellValue.text "-"]]

/-- A batch filesystem state over the configured files: three files process
successfully (10, 20 and 30 rows), the book-value file is missing on disk,
and the announcement-date file exists but raises while processing. -/
def exampleBatchEnv : String → FileState := fun s =>
  if s = "stock price.xlsx" then FileState.ok 10
  else if s = "tv.xlsx" then FileState.ok 20
  else if s = "mkt cap.xlsx" then FileState.ok 30
  else if s = "announcemnet date.xlsx" then FileState.raises "read failed"
  else FileState.absent

/-- The spec's batch scenario: five configured files, the last two missing
on disk, the first three succeeding with 10, 20 and 30 rows. -/
def exampleTwoMissingEnv : String → FileState := fun s =>
  if s = "stock price.xlsx" then FileState.ok 10
  else if s = "tv.xlsx" then FileState.ok 20
  else if s = "mkt cap.xlsx" then FileState.ok 30
  else FileState.absent

/-! ### Helper lemmas -/

/-- The three successive cleaning filters collapse to one filter on the
sentinel predicate. -/
theorem sentinelFilter_eq_filter (recs : List LongRecord) :
    sentinelFilter recs = recs.filter fun r => !isSentinel r.value := by
  unfold sentinelFilter dropnaValue dropDash dropEmptyText
  rw [List.filter_filter, List.filter_filter]
  refine List.filter_congr ?_
  intro r _
  cases hv : r.value <;> simp [isSentinel, hv, Bool.and_comm]

/-- Length of the column-major melt starting at any column index. -/
theorem meltFrom_length (rows : List WideRow) :
    ∀ (labels : List CellValue) (j : ℕ),
      (meltFrom rows j labels).length = labels.length * rows.length
  | [], _ => by simp [meltFrom]
  | _ :: rest, j => by
      simp [meltFrom, meltFrom_length rows rest (j + 1)]
      ring

/-- The record at flat position `k * R + i` of the melt starting at column
index `j` pairs row `i` with label `k`, reading the cell at column `j + k`. -/
theorem meltFrom_getElem? (rows : List WideRow) :
    ∀ (labels : List CellValue) (j k i : ℕ) (hk : k < labels.length)
      (hi : i < rows.length),
      (meltFrom rows j labels)[k * rows.length + i]? =
        some ⟨(rows.get ⟨i, hi⟩).period, labels.get ⟨k, hk⟩,
              (rows.get ⟨i, hi⟩).vals.getD (j + k) CellValue.null⟩
  | [], _, k, _, hk, _ => absurd hk (Nat.not_lt_zero k)
  | lbl :: rest, j, 0, i, _, hi => by
      have hlen : i < (rows.map fun r =>
          (⟨r.period, lbl, r.vals.getD j CellValue.null⟩ : LongRecord)).length := by
        simpa using hi
      rw [meltFrom, Nat.zero_mul, Nat.zero_add, List.getElem?_append_left hlen,
        List.getElem?_map, List.getElem?_eq_getElem hi]
      simp [List.get_eq_getElem]
  | lbl :: rest, j, k + 1, i, hk, hi => by
      have hidx : (k + 1) * rows.length + i =
          (rows.map fun r =>
            (⟨r.period, lbl, r.vals.getD j CellValue.null⟩ : LongRecord)).length +
            (k * rows.length + i) := by
        simp [Nat.succ_mul]
        ring
      have hk' : k < rest.length := Nat.lt_of_succ_lt_succ hk
      rw [meltFrom, hidx, List.getElem?_append_right (Nat.le_add_right _ _),
        Nat.add_sub_cancel_left, meltFrom_getElem? rows rest (j + 1) k i hk' hi]
      simp [List.get_eq_getElem]
      ring_nf

/-- Collapsing the zip-with-parsed-column construction (replace the column,
then `dropna`) into a single `filterMap` over the records. -/
theorem zip_map_filterMap (recs : List LongRecord) (f : LongRecord → Option ℚ)
    (g : LongRecord → ℚ → LongRecord) :
    (recs.zip (recs.map f)).filterMap (fun p => (p.2).map (g p.1)) =
      recs.filterMap fun r => (f r).map (g r) := by
  induction recs with
  | nil => rfl
  | cons r rest ih =>
      cases h : f r <;> simp [List.filterMap_cons, h, ih]

/-- A `filterMap` that only repackages the parsed value keeps exactly the
records whose parse succeeded. -/
theorem filterMap_map_length (recs : List LongRecord) (f : LongRecord → Option ℚ)
    (g : LongRecord → ℚ → LongRecord) :
    (recs.filterMap fun r => (f r).map (g r)).length = (recs.filterMap f).length := by
  induction recs with
  | nil => rfl
  | cons r rest ih =>
      cases h : f r <;> simp [List.filterMap_cons, h, ih]

/-- The two branches of the coercion step, with the committed branch
collapsed to a single `filterMap`. -/
theorem coerceStep_eq (recs : List LongRecord) :
    coerceStep recs =
      if 5 * successCount recs > 4 * recs.length then
        recs.filterMap fun r =>
          (parsedValue r).map fun q => { r with value := CellValue.num q }
      else
        recs.map fun r =>
          { r with value := CellValue.text (stripCommas (cellStr r.value)) } := by
  unfold coerceStep
  split
  · exact zip_map_filterMap recs parsedValue
      fun r q => { r with value := CellValue.num q }
  · rfl

/-- The coercion step never adds rows. -/
theorem coerceStep_length_le (recs : List LongRecord) :
    (coerceStep recs).length ≤ recs.length := by
  rw [coerceStep_eq]
  split
  · calc (recs.filterMap fun r => (parsedValue r).map
            fun q => { r with value := CellValue.num q }).length
        = (recs.filterMap parsedValue).length :=
          filterMap_map_length recs parsedValue _
      _ ≤ recs.length := List.length_filterMap_le _ _
  · simp

/-! ### Claims -/

/-- C7: the sentinel filter removes exactly the records whose value is
absent, `-`, or empty, and no others; on the 2×2 scenario with values
`[[100, "-"], [200, 300]]` the unpivot yields 4 records and the filtered
output is exactly `(P1,S1,100), (P2,S1,200), (P2,S2,300)`. -/
theorem claim_C7 :
    (∀ recs : List LongRecord,
        sentinelFilter recs = recs.filter fun r => !isSentinel r.value)
    ∧ (melt exampleTwoByTwo).length = 4
    ∧ convert_wide_to_long_csv exampleTwoByTwo =
        [⟨CellValue.text "P1", CellValue.text "S1", CellValue.num 100⟩,
         ⟨CellValue.text "P2", CellValue.text "S1", CellValue.num 200⟩,
         ⟨CellValue.text "P2", CellValue.text "S2", CellValue.num 300⟩] :=
  ⟨sentinelFilter_eq_filter, by decide, by decide⟩

/-- C8: comma thousands-separators are stripped before parsing, so the text
`"63,292,145"` coerces to the exact value 63292145, both as a single parsed
value and through the coercion step of the general pipeline. -/
theorem claim_C8 :
    stripCommas "63,292,145" = "63292145"
    ∧ parseNumeric "63292145" = some (63292145 : ℚ)
    ∧ parsedValue ⟨CellValue.text "P", CellValue.text "S",
        CellValue.text "63,292,145"⟩ = some (63292145 : ℚ)
    ∧ coerceStep [⟨CellValue.text "P", CellValue.text "S",
        CellValue.text "63,292,145"⟩] =
        [⟨CellValue.text "P", CellValue.text "S", CellValue.num 63292145⟩] := by
  refine ⟨by decide, by decide, by decide, by decide⟩

/-- C9: the sentinel filter is idempotent — filtering an already-filtered
record list changes nothing. -/
theorem claim_C9 (recs : List LongRecord) :
    sentinelFilter (sentinelFilter recs) = sentinelFilter recs := by
  rw [sentinelFilter_eq_filter, sentinelFilter_eq_filter, List.filter_filter]
  simp

/-- C1: for a text-typed value column the general pipeline strips commas,
parses, and commits the coercion exactly when strictly more than 0.8 of the
values parse — keeping the parsed numeric values and dropping the rows that
fail to parse — while at a ratio of 0.8 or below the column stays as
comma-stripped text with no row dropped; in particular 80 parseable out of
100 does not commit (the column and its 100 rows survive unchanged) and 81
out of 100 commits (the 19 unparseable rows are dropped). -/
theorem claim_C1 :
    (∀ recs : List LongRecord,
        coerceStep recs =
          if 5 * successCount recs > 4 * recs.length then
            recs.filterMap fun r =>
              (parsedValue r).map fun q => { r with value := CellValue.num q }
          else
            recs.map fun r =>
              { r with value := CellValue.text (stripCommas (cellStr r.value)) })
    ∧ (∀ df : WideTable,
        (convert_stock_file_to_long df).records =
          if objectDtype (melt df) then coerceStep (sentinelFilter (melt df))
          else sentinelFilter (melt df))
    ∧ coerceStep thresholdColumn80 = thresholdColumn80
    ∧ coerceStep thresholdColumn81 =
        List.replicate 81 ⟨CellValue.text "P", CellValue.text "S", CellValue.num 1⟩ :=
  ⟨coerceStep_eq, fun _ => rfl, by decide, by decide⟩

/-- C2: header-offset correction takes row 0 of the load as the true label
sequence, drops it from the body, re-indexes the remaining rows, and splits
the labels into the identifier (position 0) and the value columns
(positions 1..N-1) used by the subsequent melt; a load whose row 0 is
`["Period", "1101 X", "1102 Y"]` yields a table with exactly those columns
and one fewer row than the load. -/
theorem claim_C2 :
    (∀ (hdr : List CellValue) (body : List (List CellValue)),
        ∃ t : WideTable,
          fixHeaderOffset (hdr :: body) = some t
          ∧ t.idLabel = hdr.headD CellValue.null
          ∧ t.colLabels = hdr.drop 1
          ∧ t.rows = body.map (fun r => ⟨r.headD CellValue.null, r.drop 1⟩)
          ∧ t.rows.length + 1 = (hdr :: body).length
          ∧ fixAnnouncementDates (hdr :: body) = some (sentinelFilter (melt t)))
    ∧ (∃ t : WideTable,
          fixHeaderOffset exampleHeaderRaw = some t
          ∧ t.idLabel = CellValue.text "Period"
          ∧ t.colLabels = [CellValue.text "1101 X", CellValue.text "1102 Y"]
          ∧ t.rows.length + 1 = exampleHeaderRaw.length) := by
  constructor
  · intro hdr body
    exact ⟨_, rfl, rfl, rfl, rfl, by simp, rfl⟩
  · exact ⟨_, rfl, by decide, by decide, by decide⟩

/-- C3: melting a table with R rows and N value columns yields exactly R×N
records before any filtering, and the record at flat position `j·R + i`
carries row i's period as its Date, value-column j's header label as its
Stock, and the cell at (row i, value column j) as its Value. -/
theorem claim_C3 (df : WideTable) :
    (melt df).length = df.rows.length * df.colLabels.length
    ∧ ∀ j i (hj : j < df.colLabels.length) (hi : i < df.rows.length),
        (melt df)[j * df.rows.length + i]? =
          some ⟨(df.rows.get ⟨i, hi⟩).period, df.colLabels.get ⟨j, hj⟩,
                (df.rows.get ⟨i, hi⟩).vals.getD j CellValue.null⟩ := by
  constructor
  · rw [melt, meltFrom_length]
    ring
  · intro j i hj hi
    have h := meltFrom_getElem? df.rows df.colLabels 0 j i hj hi
    simpa using h

/-- Witness for C3 at the 2×2 scenario: 4 records, and position
`1·2 + 0` is (row 0, column 1), i.e. `(P1, S2, "-")`. -/
theorem claim_C3_witness :
    (melt exampleTwoByTwo).length = 2 * 2
    ∧ (melt exampleTwoByTwo)[1 * 2 + 0]? =
        some ⟨CellValue.text "P1", CellValue.text "S2", CellValue.text "-"⟩ := by
  refine ⟨(claim_C3 exampleTwoByTwo).1.trans (by decide), ?_⟩
  have h := (claim_C3 exampleTwoByTwo).2 1 0 (by decide) (by decide)
  exact h.trans (by decide)

/-- C5 fails as stated: on the 7-row table with one sentinel, five parseable
values and one unparseable value, the pipeline reports 2 removed rows, while
the sentinel filter removed only 1 — the committed numeric coercion dropped
the other. -/
theorem claim_C5_counterexample :
    (convert_stock_file_to_long exampleCoercionDrop).removedReported = 2
    ∧ (melt exampleCoercionDrop).length -
        (sentinelFilter (melt exampleCoercionDrop)).length = 1
    ∧ (convert_stock_file_to_long exampleCoercionDrop).removedReported ≠
        (melt exampleCoercionDrop).length -
          (sentinelFilter (melt exampleCoercionDrop)).length :=
  ⟨by decide, by decide, by decide⟩

/-- C5 amended: the reported removed-row count equals the rows removed by
the sentinel filter plus the rows removed afterwards by the numeric-coercion
step (zero when coercion is skipped or abandoned). -/
theorem claim_C5_amended (df : WideTable) :
    (convert_stock_file_to_long df).records.length ≤
        (sentinelFilter (melt df)).length
    ∧ (sentinelFilter (melt df)).length ≤ (melt df).length
    ∧ (convert_stock_file_to_long df).removedReported =
        ((melt df).length - (sentinelFilter (melt df)).length)
        + ((sentinelFilter (melt df)).length -
            (convert_stock_file_to_long df).records.length) := by
  have h1 : (sentinelFilter (melt df)).length ≤ (melt df).length := by
    rw [sentinelFilter_eq_filter]
    exact List.length_filter_le _ _
  have hrec : (convert_stock_file_to_long df).records =
      if objectDtype (melt df) then coerceStep (sentinelFilter (melt df))
      else sentinelFilter (melt df) := rfl
  have h2 : (convert_stock_file_to_long df).records.length ≤
      (sentinelFilter (melt df)).length := by
    rw [hrec]
    split
    · exact coerceStep_length_le _
    · exact Nat.le_refl _
  have hdef : (convert_stock_file_to_long df).removedReported =
      (melt df).length - (convert_stock_file_to_long df).records.length := rfl
  refine ⟨h2, h1, ?_⟩
  rw [hdef]
  omega

/-- C6: the book-value fixed variant coerces unconditionally — every output
value is numeric, exactly the parseable records survive (every unparseable
row is dropped), the pipeline applies the coercion with no threshold test,
and it still commits on a column whose success ratio is only 1/3. -/
theorem claim_C6 :
    (∀ (recs : List LongRecord) (r : LongRecord), r ∈ coerceUnconditional recs →
        ∃ q : ℚ, r.value = CellValue.num q)
    ∧ (∀ recs : List LongRecord,
        (coerceUnconditional recs).length = successCount recs)
    ∧ (∀ (hdr : List CellValue) (body : List (List CellValue)),
        fixBookValues (hdr :: body) =
          some (coerceUnconditional (sentinelFilter (melt
            ⟨hdr.headD CellValue.null, hdr.drop 1,
             body.map fun r => ⟨r.headD CellValue.null, r.drop 1⟩⟩))))
    ∧ fixBookValues exampleBookRaw =
        some [⟨CellValue.text "Q3", CellValue.text "A", CellValue.num 7⟩] := by
  refine ⟨?_, ?_, fun hdr body => rfl, by decide⟩
  · intro recs r hr
    unfold coerceUnconditional at hr
    rw [List.mem_filterMap] at hr
    obtain ⟨a, -, ha⟩ := hr
    cases hp : parsedValue a with
    | none => rw [hp] at ha; simp at ha
    | some q =>
        rw [hp] at ha
        simp only [Option.map_some', Option.some.injEq] at ha
        exact ⟨q, by rw [← ha]⟩
  · intro recs
    exact filterMap_map_length recs parsedValue
      fun r q => { r with value := CellValue.num q }

/-- Witness for C6: the surviving record of the low-ratio book-value run has
a numeric value. -/
theorem claim_C6_witness :
    ∃ q : ℚ, (⟨CellValue.text "Q3", CellValue.text "A",
      CellValue.num 7⟩ : LongRecord).value = CellValue.num q :=
  claim_C6.1 [⟨CellValue.text "Q3", CellValue.text "A", CellValue.text "7"⟩]
    ⟨CellValue.text "Q3", CellValue.text "A", CellValue.num 7⟩ (by decide)

/-- C10: the announcement-date fixed variant applies no numeric coercion —
its output is exactly the sentinel filter of the melt, every record
surviving the filter appears unchanged in the output, and every output
record is a record of the melt (its value untouched), so no row is dropped
for failing to parse. -/
theorem claim_C10 :
    ∀ (raw : List (List CellValue)) (out : List LongRecord),
      fixAnnouncementDates raw = some out →
        ∃ wt : WideTable,
          fixHeaderOffset raw = some wt
          ∧ out = (melt wt).filter (fun r => !isSentinel r.value)
          ∧ (∀ r ∈ melt wt, isSentinel r.value = false → r ∈ out)
          ∧ ∀ r ∈ out, r ∈ melt wt := by
  intro raw out h
  unfold fixAnnouncementDates at h
  cases hf : fixHeaderOffset raw with
  | none => rw [hf] at h; simp at h
  | some wt =>
      rw [hf] at h
      simp only [Option.map_some', Option.some.injEq] at h
      refine ⟨wt, rfl, ?_, ?_, ?_⟩
      · rw [← h, sentinelFilter_eq_filter]
      · intro r hr hs
        rw [← h, sentinelFilter_eq_filter, List.mem_filter]
        exact ⟨hr, by simp [hs]⟩
      · intro r hr
        rw [← h, sentinelFilter_eq_filter, List.mem_filter] at hr
        exact hr.1

/-- A per-file result is successful exactly when its file is present and
processes without raising. -/
theorem processConfig_success (env : String → FileState) (c : FileConfig) :
    (processConfig env c).success = isOkState (env c.file) := by
  unfold processConfig isOkState
  cases env c.file <;> rfl

/-- The successful results of a batch are the results of the successfully
processing configured files, in order. -/
theorem batch_filter_success (env : String → FileState)
    (configs : List FileConfig) :
    ((configs.map (processConfig env)).filter (·.success)) =
      (configs.filter fun c => isOkState (env c.file)).map (processConfig env) := by
  induction configs with
  | nil => rfl
  | cons c rest ih =>
      simp only [List.map_cons, List.filter_cons, processConfig_success]
      cases h : isOkState (env c.file) <;> simp [ih]

/-- The row counts of the successfully processing configured files. -/
theorem batch_ok_rows (env : String → FileState) (configs : List FileConfig) :
    ((configs.filter fun c => isOkState (env c.file)).map
        fun c => (processConfig env c).rows) =
      configs.filterMap fun c => okRows (env c.file) := by
  induction configs with
  | nil => rfl
  | cons c rest ih =>
      cases h : env c.file with
      | absent =>
          rw [List.filter_cons_of_neg (by rw [h]; exact Bool.false_ne_true),
            List.filterMap_cons_none (by rw [h]; rfl), ih]
      | raises e =>
          rw [List.filter_cons_of_neg (by rw [h]; exact Bool.false_ne_true),
            List.filterMap_cons_none (by rw [h]; rfl), ih]
      | ok n =>
          have h3 : (processConfig env c).rows = n := by
            unfold processConfig
            rw [h]
          rw [List.filter_cons_of_pos (by rw [h]; rfl),
            List.filterMap_cons_some (by rw [h]; rfl), List.map_cons, h3, ih]

/-- C4: the batch driver yields exactly one result per configured file in
order (so no failure aborts the batch), records a missing file as a
zero-row failure, records a raised processing error as a zero-row failure
carrying the error's description, and its summary report is
`successful_count / total_count` with the row total summed over the
successes; the spec's five-file scenario with the two quarterly files
missing reports 3/5 successful with the missing two at
`rows = 0, success = false`. -/
theorem claim_C4 (env : String → FileState) (configs : List FileConfig) :
    (convert_all_stock_files env configs).length = configs.length
    ∧ (∀ i : ℕ, (convert_all_stock_files env configs)[i]? =
        (configs[i]?).map (processConfig env))
    ∧ (∀ c : FileConfig, env c.file = FileState.absent →
        processConfig env c =
          { originalFile := c.file, outputFile := none,
            description := c.description, rows := 0, success := false,
            error := none })
    ∧ (∀ (c : FileConfig) (e : String), env c.file = FileState.raises e →
        processConfig env c =
          { originalFile := c.file, outputFile := none,
            description := c.description, rows := 0, success := false,
            error := some e })
    ∧ batchSummary (convert_all_stock_files env configs) =
        ((configs.filter fun c => isOkState (env c.file)).length,
          configs.length,
          (configs.filterMap fun c => okRows (env c.file)).sum)
    ∧ batchSummary (convert_all_stock_files exampleTwoMissingEnv files_config) =
        (3, 5, 60)
    ∧ (convert_all_stock_files exampleTwoMissingEnv files_config)[3]? =
        some { originalFile := "book value.xlsx", outputFile := none,
               description := "Book Value (Quarterly)", rows := 0,
               success := false, error := none }
    ∧ (convert_all_stock_files exampleTwoMissingEnv files_config)[4]? =
        some { originalFile := "announcemnet date.xlsx", outputFile := none,
               description := "Announcement Dates", rows := 0,
               success := false, error := none } := by
  refine ⟨by simp [convert_all_stock_files], ?_, ?_, ?_, ?_,
    by decide, by decide, by decide⟩
  · intro i
    simp [convert_all_stock_files, List.getElem?_map]
  · intro c h
    simp [processConfig, h]
  · intro c e h
    simp [processConfig, h]
  · unfold batchSummary convert_all_stock_files
    rw [batch_filter_success, List.length_map, List.map_map]
    rw [show ((fun r : ConversionResult => r.rows) ∘ processConfig env) =
      (fun c => (processConfig env c).rows) from rfl, batch_ok_rows,
      List.length_map]

/-- Witness for C4: under the mixed filesystem state the missing book-value
file and the raising announcement-date file are both recorded as zero-row
failures, and the summary still counts the three successes. -/
theorem claim_C4_witness :
    processConfig exampleBatchEnv
      ⟨"book value.xlsx", "_book_value", "BookValue", "Book Value (Quarterly)"⟩ =
        { originalFile := "book value.xlsx", outputFile := none,
          description := "Book Value (Quarterly)", rows := 0, success := false,
          error := none }
    ∧ processConfig exampleBatchEnv
        ⟨"announcemnet date.xlsx", "_announcement", "AnnouncementDate",
          "Announcement Dates"⟩ =
        { originalFile := "announcemnet date.xlsx", outputFile := none,
          description := "Announcement Dates", rows := 0, success := false,
          error := some "read failed" }
    ∧ batchSummary (convert_all_stock_files exampleBatchEnv files_config) =
        (3, 5, 60) :=
  ⟨(claim_C4 exampleBatchEnv files_config).2.2.1 _ (by decide),
   (claim_C4 exampleBatchEnv files_config).2.2.2.1 _ "read failed" (by decide),
   ((claim_C4 exampleBatchEnv files_config).2.2.2.2.1).trans (by decide)⟩

/-- Witness for C10: on the concrete announcement load the non-numeric
value `"3/31"` survives unchanged and the sentinel `-` is the only removed
record. -/
theorem claim_C10_witness :
    ∃ wt : WideTable,
      fixHeaderOffset exampleAnnounceRaw = some wt
      ∧ [(⟨CellValue.text "Q1", CellValue.text "A",
            CellValue.text "3/31"⟩ : LongRecord)] =
          (melt wt).filter (fun r => !isSentinel r.value)
      ∧ (∀ r ∈ melt wt, isSentinel r.value = false →
          r ∈ [(⟨CellValue.text "Q1", CellValue.text "A",
            CellValue.text "3/31"⟩ : LongRecord)])
      ∧ ∀ r ∈ [(⟨CellValue.text "Q1", CellValue.text "A",
          CellValue.text "3/31"⟩ : LongRecord)], r ∈ melt wt :=
  claim_C10 exampleAnnounceRaw
    [⟨CellValue.text "Q1", CellValue.text "A", CellValue.text "3/31"⟩] (by decide)
